import Mathlib

/-!
Verification of the deterministic heuristic analyzer (`src/analyzer.ts`).

Modelling conventions:
* JavaScript numbers are modelled as exact rationals (`ℚ`).  Every arithmetic
  operation the analyzer performs (addition, multiplication, division,
  comparison, `Math.round`, `Math.max`/`Math.min`) is exact on the rationals.
* Nullable fields (`number | null`, optional fields) are modelled as `Option ℚ`
  (or `Option String`, `Option (List Holder)`, `Option ℤ`).  `safe` mirrors the
  source helper `safe(n, fallback)`: in the rational model `isFinite` is always
  true, so presence alone decides.
* `Math.round` is modelled by `jsRound x = ⌊x + 1/2⌋`, which is JavaScript's
  round-half-toward-positive-infinity on all finite values.
* JavaScript truthiness on strings (`!dp.website` is true for both `null` and
  the empty string) is modelled by `truthy`; truthiness of a number (the
  `dp.snapshotAt &&` guard, false for `null` and `0`) is modelled explicitly.
* `Date.now()` is injected as an explicit parameter `now : ℤ` (milliseconds).
* The free-text `summary` field produced by `generateSummary` depends on
  JavaScript's floating-point number formatting (`toFixed`, template-literal
  printing) and is not modelled; it is a pure string concatenation with no
  failure path, and no claim depends on its contents.  DataPoint fields the
  analyzer never reads (identity fields, 6h windows, streaming, DEX flags,
  recent trades, ttl, version) are likewise omitted from the record.
-/

namespace PumpQuant

/-- Enum `RiskLevel` from `types.ts`. -/
inductive RiskLevel
  | critical
  | high
  | medium
  | low
  deriving DecidableEq, Repr

/-- Enum `LiquidityDepth` from `types.ts`. -/
inductive LiquidityDepth
  | deep
  | moderate
  | shallow
  | dry
  deriving DecidableEq, Repr

/-- Enum `HolderConcentration` from `types.ts`. -/
inductive HolderConcentration
  | distributed
  | moderate
  | concentrated
  | whale_dominated
  deriving DecidableEq, Repr

/-- Enum `TrendDirection` from `types.ts`. -/
inductive TrendDirection
  | up
  | down
  | sideways
  | reversal
  deriving DecidableEq, Repr

/-- Enum `VolumeProfile` from `types.ts`. -/
inductive VolumeProfile
  | surging
  | rising
  | stable
  | declining
  | dead
  deriving DecidableEq, Repr

/-- Enum `Sentiment` from `types.ts`. -/
inductive Sentiment
  | bullish
  | bearish
  | neutral
  deriving DecidableEq, Repr

/-- The 28-word `RiskFactor` vocabulary from `types.ts`. -/
inductive RiskFactor
  | whale_dominance
  | creator_holds_majority
  | low_liquidity
  | no_liquidity_lock
  | high_concentration
  | rug_pattern
  | honeypot_risk
  | wash_trading
  | bonding_curve_risk
  | rapid_sell_off
  | no_social_presence
  | fake_volume
  | supply_manipulation
  | dev_wallet_active
  | copy_token
  | no_website
  | new_deployer
  | single_holder_majority
  | declining_holders
  | dead_volume
  | healthy_distribution
  | strong_community
  | organic_volume
  | locked_liquidity
  | verified_socials
  | active_development
  | growing_holders
  | smart_money_inflow
  deriving DecidableEq, Repr

/-- Entry of the `topHolders` array (`types.ts`). -/
structure Holder where
  address : String
  amount : ℚ
  pct : ℚ
  deriving DecidableEq, Repr

/-- The fields of `DataPoint` (`types.ts`) that `analyze` reads. -/
structure DataPoint where
  priceUsd : Option ℚ
  priceChange1h : Option ℚ
  priceChange24h : Option ℚ
  marketCap : Option ℚ
  liquidity : Option ℚ
  volume24h : Option ℚ
  buys24h : Option ℚ
  sells24h : Option ℚ
  holderCount : Option ℚ
  bondingComplete : Bool
  bondingProgress : Option ℚ
  website : Option String
  twitter : Option String
  telegram : Option String
  topHolders : Option (List Holder)
  top10Holding : Option ℚ
  snipersHolding : Option ℚ
  insidersHolding : Option ℚ
  creatorHolding : Option ℚ
  snapshotAt : Option ℤ
  deriving DecidableEq, Repr

/-- `Snapshot` (`types.ts`): 10 numeric fields; the timestamp is integer ms. -/
structure Snapshot where
  priceUsd : ℚ
  marketCap : ℚ
  volume24h : ℚ
  liquidity : ℚ
  holderCount : ℚ
  top10HolderPct : ℚ
  buys24h : ℚ
  sells24h : ℚ
  bondingProgress : ℚ
  snapshotAt : ℤ
  deriving DecidableEq, Repr

/-- `Quant` (`types.ts`). -/
structure Quant where
  riskLevel : RiskLevel
  riskFactors : List RiskFactor
  buyPressure : ℚ
  volatilityScore : ℚ
  liquidityDepth : LiquidityDepth
  holderConcentration : HolderConcentration
  trendDirection : TrendDirection
  volumeProfile : VolumeProfile
  deriving DecidableEq, Repr

/-- `AnalysisResult` (`types.ts`), minus the unmodelled free-text summary. -/
structure AnalysisResult where
  sentiment : Sentiment
  score : ℚ
  snapshot : Snapshot
  quant : Quant
  deriving DecidableEq, Repr

/-- `clamp(n, min, max) = Math.max(min, Math.min(max, n))` from `analyzer.ts`. -/
def jsClamp (n lo hi : ℚ) : ℚ := max lo (min hi n)

/-- JavaScript `Math.round`: round half toward positive infinity. -/
def jsRound (x : ℚ) : ℤ := ⌊x + 1/2⌋

/-- `safe(n, fallback)` from `analyzer.ts`: a present (always-finite in this
model) value, else the fallback.  The source defaults `fallback` to 0; call
sites here pass the fallback explicitly. -/
def safe (n : Option ℚ) (fallback : ℚ) : ℚ := n.getD fallback

/-- JavaScript truthiness of a `string | null` value: `null` and `""` are
falsy, every other string is truthy. -/
def truthy : Option String → Bool
  | none => false
  | some s => !(s == "")

/-- Model of `o != null && o > t` for a nullable numeric field. -/
def overOpt (o : Option ℚ) (t : ℚ) : Bool :=
  match o with
  | some v => decide (v > t)
  | none => false

/-- Model of `o != null && o < t` for a nullable numeric field. -/
def underOpt (o : Option ℚ) (t : ℚ) : Bool :=
  match o with
  | some v => decide (v < t)
  | none => false

/-- `computeTop10Pct` (`analyzer.ts` lines 39-51): prefer `top10Holding`,
else sum `pct` over the first 10 `topHolders`, else 0.  The source wraps each
`h.pct` in `safe`, which is the identity on a present rational. -/
def computeTop10Pct (dp : DataPoint) : ℚ :=
  match dp.top10Holding with
  | some v => v
  | none =>
    match dp.topHolders with
    | some hs => if 0 < hs.length then (hs.take 10).foldl (fun s h => s + h.pct) 0 else 0
    | none => 0

/-- `computeBuyPressure` (`analyzer.ts` lines 55-60). -/
def computeBuyPressure (dp : DataPoint) : ℚ :=
  let buys := safe dp.buys24h 0
  let sells := safe dp.sells24h 0
  if buys + sells = 0 then 50
  else jsClamp ((jsRound (buys / (buys + sells + 1) * 100) : ℤ) : ℚ) 0 100

/-- The piecewise band mapping of the volume/mcap value to a score
(`analyzer.ts` lines 76-79). -/
def volBands (r : ℚ) : ℚ :=
  if r < 0.05 then jsClamp ((jsRound (10 + r * 300) : ℤ) : ℚ) 10 25
  else if r < 0.2 then jsClamp ((jsRound (25 + (r - 0.05) * 166) : ℤ) : ℚ) 25 50
  else if r < 0.5 then jsClamp ((jsRound (50 + (r - 0.2) * 83) : ℤ) : ℚ) 50 75
  else jsClamp ((jsRound (75 + (r - 0.5) * 40) : ℤ) : ℚ) 75 95

/-- `computeVolatilityScore` (`analyzer.ts` lines 64-80). -/
def computeVolatilityScore (dp : DataPoint) : ℚ :=
  let vol := safe dp.volume24h 0
  let mcap := safe dp.marketCap 1
  if mcap ≤ 0 then 50
  else volBands (vol / mcap)

/-- `computeLiquidityDepth` (`analyzer.ts` lines 84-90). -/
def computeLiquidityDepth (dp : DataPoint) : LiquidityDepth :=
  let liq := safe dp.liquidity 0
  if liq ≥ 1000000 then .deep
  else if liq ≥ 250000 then .moderate
  else if liq ≥ 50000 then .shallow
  else .dry

/-- `computeHolderConcentration` (`analyzer.ts` lines 94-99). -/
def computeHolderConcentration (top10Pct : ℚ) : HolderConcentration :=
  if top10Pct > 80 then .whale_dominated
  else if top10Pct > 50 then .concentrated
  else if top10Pct > 20 then .moderate
  else .distributed

/-- `computeTrendDirection` (`analyzer.ts` lines 103-127). -/
def computeTrendDirection (dp : DataPoint) : TrendDirection :=
  let ch1h := safe dp.priceChange1h 0
  let ch24h := safe dp.priceChange24h 0
  if dp.priceChange1h.isSome || dp.priceChange24h.isSome then
    if ch1h > 5 ∧ ch24h < -10 then .reversal
    else if ch1h < -5 ∧ ch24h > 10 then .reversal
    else
      let combined := ch1h * 0.6 + ch24h * 0.4
      if combined > 3 then .up
      else if combined < -3 then .down
      else .sideways
  else
    let buys := safe dp.buys24h 0
    let sells := safe dp.sells24h 0
    if buys + sells = 0 then .sideways
    else
      let r := buys / (buys + sells)
      if r > 0.6 then .up
      else if r < 0.4 then .down
      else .sideways

/-- `computeVolumeProfile` (`analyzer.ts` lines 131-143). -/
def computeVolumeProfile (dp : DataPoint) : VolumeProfile :=
  let vol := safe dp.volume24h 0
  let mcap := safe dp.marketCap 1
  if mcap ≤ 0 then .dead
  else
    let r := vol / mcap
    if r > 0.5 then .surging
    else if r > 0.15 then .rising
    else if r > 0.03 then .stable
    else if r > 0.005 then .declining
    else .dead

/-- A guarded `factors.push(tag)` of the checklist: the singleton `[tag]`
when the condition holds, else nothing. -/
def optTag (c : Prop) [Decidable c] (t : RiskFactor) : List RiskFactor :=
  if c then [t] else []

/-- Model of the guard `dp.topHolders && dp.topHolders.length > 0 &&
dp.topHolders[0]!.pct > 50` (`analyzer.ts` line 161). -/
def firstHolderOver (dp : DataPoint) : Bool :=
  match dp.topHolders with
  | some (h :: _) => decide (h.pct > 50)
  | _ => false

/-- The raw, possibly-duplicated factor list built by the ordered checklist of
`computeRiskFactors` before deduplication (`analyzer.ts` lines 148-212).
Each guarded `push` becomes an optional singleton, concatenated in source
order. -/
def factorsRaw (dp : DataPoint) (top10Pct : ℚ) : List RiskFactor :=
  optTag (safe dp.liquidity 0 < 50000) .low_liquidity
  ++ optTag (top10Pct > 80) .whale_dominance
  ++ optTag (top10Pct > 50 ∧ top10Pct ≤ 80) .high_concentration
  ++ optTag (overOpt dp.creatorHolding 30 = true) .creator_holds_majority
  ++ optTag (firstHolderOver dp = true) .single_holder_majority
  ++ optTag (dp.bondingComplete = false ∧ safe dp.bondingProgress 0 < 30) .bonding_curve_risk
  ++ optTag (truthy dp.website = false ∧ truthy dp.twitter = false ∧
       truthy dp.telegram = false) .no_social_presence
  ++ optTag (truthy dp.website = false) .no_website
  ++ optTag (overOpt dp.snipersHolding 20 = true) .dev_wallet_active
  ++ optTag (overOpt dp.insidersHolding 15 = true) .wash_trading
  ++ optTag (safe dp.sells24h 0 > safe dp.buys24h 0 * 2 ∧ safe dp.sells24h 0 > 20) .rapid_sell_off
  ++ optTag (safe dp.volume24h 0 < 1000 ∧ safe dp.holderCount 0 > 100) .dead_volume
  ++ optTag (underOpt dp.priceChange24h (-20) = true) .declining_holders
  ++ optTag (top10Pct ≤ 30 ∧ safe dp.holderCount 0 > 200) .healthy_distribution
  ++ optTag (truthy dp.twitter = true ∨ truthy dp.telegram = true) .verified_socials
  ++ optTag (safe dp.volume24h 0 > 50000 ∧ safe dp.buys24h 0 > safe dp.sells24h 0 * 0.8)
       .organic_volume
  ++ optTag (safe dp.holderCount 0 > 500) .growing_holders
  ++ optTag (truthy dp.twitter = true) .strong_community

/-- Order-preserving first-occurrence deduplication, as performed by
`[...new Set(factors)]` (JavaScript `Set` iterates in insertion order).
`seen` accumulates the tags already emitted. -/
def dedupGo : List RiskFactor → List RiskFactor → List RiskFactor
  | [], _ => []
  | x :: xs, seen => if x ∈ seen then dedupGo xs seen else x :: dedupGo xs (x :: seen)

/-- `[...new Set(factors)]`: deduplicate keeping the first occurrence. -/
def dedupFirst (l : List RiskFactor) : List RiskFactor := dedupGo l []

/-- `computeRiskFactors` (`analyzer.ts` lines 147-220): run the checklist,
deduplicate, inject the fallback tag when empty, cap at 8. -/
def computeRiskFactors (dp : DataPoint) (top10Pct : ℚ) : List RiskFactor :=
  let deduped := dedupFirst (factorsRaw dp top10Pct)
  let withFallback :=
    if deduped = [] then
      [if safe dp.liquidity 0 ≥ 50000 then RiskFactor.organic_volume else RiskFactor.low_liquidity]
    else deduped
  withFallback.take 8

/-- The fixed 20-tag negative subset (`analyzer.ts` lines 225-231). -/
def negativeFactors : List RiskFactor :=
  [.whale_dominance, .creator_holds_majority, .low_liquidity, .no_liquidity_lock,
   .high_concentration, .rug_pattern, .honeypot_risk, .wash_trading,
   .bonding_curve_risk, .rapid_sell_off, .no_social_presence, .fake_volume,
   .supply_manipulation, .dev_wallet_active, .copy_token, .no_website,
   .new_deployer, .single_holder_majority, .declining_holders, .dead_volume]

/-- The fixed 3-tag critical subset (`analyzer.ts` line 234). -/
def criticalFactors : List RiskFactor :=
  [.rug_pattern, .honeypot_risk, .single_holder_majority]

/-- `negCount` of `computeRiskLevel`: how many of the factors are negative. -/
def negCountOf (factors : List RiskFactor) : ℕ :=
  (factors.filter (fun f => decide (f ∈ negativeFactors))).length

/-- `computeRiskLevel` (`analyzer.ts` lines 224-241). -/
def computeRiskLevel (factors : List RiskFactor) (buyPressure : ℚ) : RiskLevel :=
  let negCount := negCountOf factors
  let hasCritical := factors.any (fun f => decide (f ∈ criticalFactors))
  if hasCritical = true ∨ negCount ≥ 5 then .critical
  else if negCount ≥ 3 ∨ buyPressure < 25 then .high
  else if negCount ≥ 1 then .medium
  else .low

/-- `computeScore` (`analyzer.ts` lines 245-275); the sequential mutations of
`score` become sequential bindings. -/
def computeScore (buyPressure volatilityScore : ℚ) (riskLevel : RiskLevel)
    (trendDirection : TrendDirection) (liquidityDepth : LiquidityDepth) : ℚ :=
  let s1 : ℚ := 50 + (buyPressure - 50) * 0.5
  let s2 := if trendDirection = .up then s1 + 10
    else if trendDirection = .down then s1 - 10
    else if trendDirection = .reversal then s1 - 5
    else s1
  let s3 := if volatilityScore > 70 then s2 - 5 else s2
  let s4 := if riskLevel = .critical then s3 - 20
    else if riskLevel = .high then s3 - 10
    else if riskLevel = .low then s3 + 10
    else s3
  let s5 := if liquidityDepth = .deep then s4 + 5
    else if liquidityDepth = .dry then s4 - 10
    else s4
  jsClamp ((jsRound s5 : ℤ) : ℚ) 0 100

/-- `computeSentiment` (`analyzer.ts` lines 279-283). -/
def computeSentiment (score : ℚ) (riskLevel : RiskLevel) : Sentiment :=
  if riskLevel = .critical ∨ score < 35 then .bearish
  else if score > 65 ∧ riskLevel ≠ .high then .bullish
  else .neutral

/-- The `snapshotAt` ternary of `analyze` (`analyzer.ts` lines 366-368):
`(dp.snapshotAt && Date.now() - dp.snapshotAt < 300_000) ? dp.snapshotAt :
Date.now()`.  A number is truthy exactly when it is present and nonzero. -/
def snapshotAtOf (dp : DataPoint) (now : ℤ) : ℤ :=
  match dp.snapshotAt with
  | some ts => if ts ≠ 0 ∧ now - ts < 300000 then ts else now
  | none => now

/-- `analyze` (`analyzer.ts` lines 352-398), with `Date.now()` injected as
`now`. -/
def analyze (dp : DataPoint) (now : ℤ) : AnalysisResult :=
  let top10Pct := computeTop10Pct dp
  let snapshot : Snapshot :=
    { priceUsd := safe dp.priceUsd 0
      marketCap := safe dp.marketCap 0
      volume24h := safe dp.volume24h 0
      liquidity := safe dp.liquidity 0
      holderCount := safe dp.holderCount 0
      top10HolderPct := ((jsRound (top10Pct * 10) : ℤ) : ℚ) / 10
      buys24h := safe dp.buys24h 0
      sells24h := safe dp.sells24h 0
      bondingProgress := safe dp.bondingProgress 0
      snapshotAt := snapshotAtOf dp now }
  let buyPressure := computeBuyPressure dp
  let volatilityScore := computeVolatilityScore dp
  let liquidityDepth := computeLiquidityDepth dp
  let holderConcentration := computeHolderConcentration top10Pct
  let trendDirection := computeTrendDirection dp
  let volumeProfile := computeVolumeProfile dp
  let riskFactors := computeRiskFactors dp top10Pct
  let riskLevel := computeRiskLevel riskFactors buyPressure
  let quant : Quant :=
    { riskLevel := riskLevel
      riskFactors := riskFactors
      buyPressure := buyPressure
      volatilityScore := volatilityScore
      liquidityDepth := liquidityDepth
      holderConcentration := holderConcentration
      trendDirection := trendDirection
      volumeProfile := volumeProfile }
  let score := computeScore buyPressure volatilityScore riskLevel trendDirection liquidityDepth
  let sentiment := computeSentiment score riskLevel
  { sentiment := sentiment, score := score, snapshot := snapshot, quant := quant }

/-- The 18 tags the checklist can emit, in checklist order (derived from
`analyzer.ts` lines 148-212; used to state order preservation). -/
def checklistTags : List RiskFactor :=
  [.low_liquidity, .whale_dominance, .high_concentration, .creator_holds_majority,
   .single_holder_majority, .bonding_curve_risk, .no_social_presence, .no_website,
   .dev_wallet_active, .wash_trading, .rapid_sell_off, .dead_volume,
   .declining_holders, .healthy_distribution, .verified_socials, .organic_volume,
   .growing_holders, .strong_community]

/-- The 10 vocabulary tags named by claim C10 as never producible. -/
def unproducibleTags : List RiskFactor :=
  [.rug_pattern, .honeypot_risk, .no_liquidity_lock, .fake_volume,
   .supply_manipulation, .copy_token, .new_deployer, .locked_liquidity,
   .active_development, .smart_money_inflow]

/-- Modelled from the claim C4's words, for comparison with the source: a
volatility score whose denominator is `max(marketCap, 1)` (a present market
cap strictly between 0 and 1 raised to 1 before dividing). -/
def specVolatilityScore (dp : DataPoint) : ℚ :=
  let vol := safe dp.volume24h 0
  let mcap := safe dp.marketCap 1
  if mcap ≤ 0 then 50
  else volBands (vol / max mcap 1)

/-- A rational is integral. -/
def isInt (q : ℚ) : Prop := ∃ n : ℤ, q = (n : ℚ)

/-- DataPoint with every optional field absent. -/
def dpNone : DataPoint :=
  { priceUsd := none, priceChange1h := none, priceChange24h := none,
    marketCap := none, liquidity := none, volume24h := none,
    buys24h := none, sells24h := none, holderCount := none,
    bondingComplete := false, bondingProgress := none,
    website := none, twitter := none, telegram := none,
    topHolders := none, top10Holding := none,
    snipersHolding := none, insidersHolding := none, creatorHolding := none,
    snapshotAt := none }

/-- DataPoint on which every checklist predicate is false. -/
def dpAllFalse : DataPoint :=
  { priceUsd := none, priceChange1h := none, priceChange24h := none,
    marketCap := none, liquidity := some 60000, volume24h := some 10000,
    buys24h := some 0, sells24h := some 0, holderCount := some 300,
    bondingComplete := true, bondingProgress := none,
    website := some "w", twitter := none, telegram := none,
    topHolders := none, top10Holding := some 40,
    snipersHolding := none, insidersHolding := none, creatorHolding := none,
    snapshotAt := none }

/-- DataPoint with a present market cap strictly between 0 and 1. -/
def dpHalfCap : DataPoint :=
  { priceUsd := none, priceChange1h := none, priceChange24h := none,
    marketCap := some ((1 : ℚ)/2), liquidity := none, volume24h := some ((1 : ℚ)/2),
    buys24h := none, sells24h := none, holderCount := none,
    bondingComplete := false, bondingProgress := none,
    website := none, twitter := none, telegram := none,
    topHolders := none, top10Holding := none,
    snipersHolding := none, insidersHolding := none, creatorHolding := none,
    snapshotAt := none }

/-- DataPoint with a fresh capture timestamp. -/
def dpFresh : DataPoint :=
  { priceUsd := none, priceChange1h := none, priceChange24h := none,
    marketCap := none, liquidity := none, volume24h := none,
    buys24h := none, sells24h := none, holderCount := none,
    bondingComplete := false, bondingProgress := none,
    website := none, twitter := none, telegram := none,
    topHolders := none, top10Holding := none,
    snipersHolding := none, insidersHolding := none, creatorHolding := none,
    snapshotAt := some 900000 }

/-- DataPoint with 80 buys and 20 sells. -/
def dpBuys : DataPoint :=
  { priceUsd := none, priceChange1h := none, priceChange24h := none,
    marketCap := none, liquidity := none, volume24h := none,
    buys24h := some 80, sells24h := some 20, holderCount := none,
    bondingComplete := false, bondingProgress := none,
    website := none, twitter := none, telegram := none,
    topHolders := none, top10Holding := none,
    snipersHolding := none, insidersHolding := none, creatorHolding := none,
    snapshotAt := none }

/- ================= helper lemmas ================= -/

theorem mem_optTag {c : Prop} [Decidable c] {t x : RiskFactor} :
    x ∈ optTag c t ↔ c ∧ x = t := by
  by_cases h : c <;> simp [optTag, h]

theorem optTag_sublist {c : Prop} [Decidable c] {t : RiskFactor} :
    List.Sublist (optTag c t) [t] := by
  by_cases h : c <;> simp [optTag, h]

theorem length_optTag_le (c : Prop) [Decidable c] (t : RiskFactor) :
    (optTag c t).length ≤ 1 := by
  by_cases h : c <;> simp [optTag, h]

theorem optTag_pos {c : Prop} [Decidable c] {t : RiskFactor} (h : c) :
    optTag c t = [t] := if_pos h

theorem optTag_neg {c : Prop} [Decidable c] {t : RiskFactor} (h : ¬c) :
    optTag c t = [] := if_neg h

theorem dedupGo_sublist (l : List RiskFactor) :
    ∀ seen, List.Sublist (dedupGo l seen) l := by
  induction l with
  | nil => intro seen; simp [dedupGo]
  | cons x xs ih =>
    intro seen
    by_cases h : x ∈ seen
    · simpa [dedupGo, h] using (ih seen).trans (List.sublist_cons_self x xs)
    · simpa [dedupGo, h] using (ih (x :: seen)).cons₂ x

theorem mem_dedupGo {y : RiskFactor} (l : List RiskFactor) :
    ∀ seen, y ∈ dedupGo l seen ↔ y ∈ l ∧ y ∉ seen := by
  induction l with
  | nil => intro seen; simp [dedupGo]
  | cons x xs ih =>
    intro seen
    by_cases h : x ∈ seen
    · rw [dedupGo, if_pos h, ih seen]
      constructor
      · rintro ⟨hy, hs⟩; exact ⟨List.mem_cons_of_mem _ hy, hs⟩
      · rintro ⟨hy, hs⟩
        rcases List.mem_cons.mp hy with rfl | hy
        · exact absurd h hs
        · exact ⟨hy, hs⟩
    · rw [dedupGo, if_neg h]
      constructor
      · intro hy
        rcases List.mem_cons.mp hy with rfl | hy
        · exact ⟨List.mem_cons_self _ _, h⟩
        · rcases (ih (x :: seen)).mp hy with ⟨h1, h2⟩
          exact ⟨List.mem_cons_of_mem _ h1, fun hs => h2 (List.mem_cons_of_mem _ hs)⟩
      · rintro ⟨hy, hs⟩
        rcases List.mem_cons.mp hy with rfl | hy
        · exact List.mem_cons_self _ _
        · by_cases hyx : y = x
          · subst hyx; exact List.mem_cons_self _ _
          · exact List.mem_cons_of_mem _ ((ih (x :: seen)).mpr
              ⟨hy, fun hm => (List.mem_cons.mp hm).elim hyx hs⟩)

theorem nodup_dedupGo (l : List RiskFactor) :
    ∀ seen, (dedupGo l seen).Nodup := by
  induction l with
  | nil => intro seen; simp [dedupGo]
  | cons x xs ih =>
    intro seen
    by_cases h : x ∈ seen
    · simpa [dedupGo, h] using ih seen
    · rw [dedupGo, if_neg h]
      refine List.nodup_cons.mpr ⟨?_, ih (x :: seen)⟩
      intro hx
      exact ((mem_dedupGo xs (x :: seen)).mp hx).2 (List.mem_cons_self _ _)

theorem dedupGo_eq_self (l : List RiskFactor) :
    ∀ seen, l.Nodup → (∀ y ∈ l, y ∉ seen) → dedupGo l seen = l := by
  induction l with
  | nil => intro seen _ _; rfl
  | cons x xs ih =>
    intro seen hnd hsn
    rw [dedupGo, if_neg (hsn x (List.mem_cons_self _ _))]
    have hnd' := List.nodup_cons.mp hnd
    refine congrArg (x :: ·) (ih (x :: seen) hnd'.2 ?_)
    intro y hy hmem
    rcases List.mem_cons.mp hmem with rfl | hm
    · exact hnd'.1 hy
    · exact hsn y (List.mem_cons_of_mem _ hy) hm

theorem dedupFirst_sublist (l : List RiskFactor) : List.Sublist (dedupFirst l) l :=
  dedupGo_sublist l []

theorem mem_dedupFirst {y : RiskFactor} {l : List RiskFactor} :
    y ∈ dedupFirst l ↔ y ∈ l := by
  simp [dedupFirst, mem_dedupGo]

theorem dedupFirst_eq_self {l : List RiskFactor} (h : l.Nodup) : dedupFirst l = l :=
  dedupGo_eq_self l [] h (by simp)

theorem checklistTags_nodup : checklistTags.Nodup := by decide

theorem factorsRaw_sublist (dp : DataPoint) (p : ℚ) :
    List.Sublist (factorsRaw dp p) checklistTags := by
  show List.Sublist (factorsRaw dp p)
    ([RiskFactor.low_liquidity] ++ [RiskFactor.whale_dominance] ++
     [RiskFactor.high_concentration] ++ [RiskFactor.creator_holds_majority] ++
     [RiskFactor.single_holder_majority] ++ [RiskFactor.bonding_curve_risk] ++
     [RiskFactor.no_social_presence] ++ [RiskFactor.no_website] ++
     [RiskFactor.dev_wallet_active] ++ [RiskFactor.wash_trading] ++
     [RiskFactor.rapid_sell_off] ++ [RiskFactor.dead_volume] ++
     [RiskFactor.declining_holders] ++ [RiskFactor.healthy_distribution] ++
     [RiskFactor.verified_socials] ++ [RiskFactor.organic_volume] ++
     [RiskFactor.growing_holders] ++ [RiskFactor.strong_community])
  unfold factorsRaw
  exact List.Sublist.append (List.Sublist.append (List.Sublist.append (List.Sublist.append (List.Sublist.append (List.Sublist.append (List.Sublist.append (List.Sublist.append (List.Sublist.append (List.Sublist.append (List.Sublist.append (List.Sublist.append (List.Sublist.append (List.Sublist.append (List.Sublist.append (List.Sublist.append (List.Sublist.append optTag_sublist optTag_sublist) optTag_sublist) optTag_sublist) optTag_sublist) optTag_sublist) optTag_sublist) optTag_sublist) optTag_sublist) optTag_sublist) optTag_sublist) optTag_sublist) optTag_sublist) optTag_sublist) optTag_sublist) optTag_sublist) optTag_sublist) optTag_sublist

theorem computeRiskFactors_def (dp : DataPoint) (p : ℚ) :
    computeRiskFactors dp p =
      (if dedupFirst (factorsRaw dp p) = [] then
        [if safe dp.liquidity 0 ≥ 50000 then RiskFactor.organic_volume
         else RiskFactor.low_liquidity]
       else dedupFirst (factorsRaw dp p)).take 8 := rfl

theorem riskFactors_sublist (dp : DataPoint) (p : ℚ) :
    List.Sublist (computeRiskFactors dp p) checklistTags := by
  rw [computeRiskFactors_def]
  by_cases h : dedupFirst (factorsRaw dp p) = []
  · rw [if_pos h]
    refine (List.take_sublist _ _).trans ?_
    rw [List.singleton_sublist]
    by_cases hl : safe dp.liquidity 0 ≥ 50000 <;> simp [hl, checklistTags]
  · rw [if_neg h]
    exact (List.take_sublist _ _).trans
      ((dedupFirst_sublist _).trans (factorsRaw_sublist dp p))

theorem riskFactors_nodup (dp : DataPoint) (p : ℚ) :
    (computeRiskFactors dp p).Nodup :=
  (riskFactors_sublist dp p).nodup checklistTags_nodup

theorem riskFactors_length (dp : DataPoint) (p : ℚ) :
    1 ≤ (computeRiskFactors dp p).length ∧ (computeRiskFactors dp p).length ≤ 8 := by
  rw [computeRiskFactors_def]
  by_cases h : dedupFirst (factorsRaw dp p) = []
  · rw [if_pos h]; simp
  · rw [if_neg h]
    rw [List.length_take]
    constructor
    · have : 1 ≤ (dedupFirst (factorsRaw dp p)).length :=
        Nat.one_le_iff_ne_zero.mpr (fun hz => h (List.length_eq_zero.mp hz))
      omega
    · omega

theorem factorsRaw_nodup (dp : DataPoint) (p : ℚ) : (factorsRaw dp p).Nodup :=
  (factorsRaw_sublist dp p).nodup checklistTags_nodup

theorem le_jsClamp (n lo hi : ℚ) : lo ≤ jsClamp n lo hi := le_max_left _ _

theorem jsClamp_le {n lo hi : ℚ} (h : lo ≤ hi) : jsClamp n lo hi ≤ hi :=
  max_le h (min_le_left _ _)

theorem jsClamp_intCast (m : ℤ) (lo hi : ℤ) :
    jsClamp (m : ℚ) (lo : ℚ) (hi : ℚ) = ((max lo (min hi m) : ℤ) : ℚ) := by
  unfold jsClamp
  push_cast
  rfl

theorem isInt_jsClamp (m : ℤ) : isInt (jsClamp (m : ℚ) 0 100) := by
  refine ⟨max 0 (min 100 m), ?_⟩
  have := jsClamp_intCast m 0 100
  push_cast at this ⊢
  exact this

theorem analyze_def (dp : DataPoint) (now : ℤ) :
    analyze dp now =
      { sentiment := computeSentiment
          (computeScore (computeBuyPressure dp) (computeVolatilityScore dp)
            (computeRiskLevel (computeRiskFactors dp (computeTop10Pct dp))
              (computeBuyPressure dp))
            (computeTrendDirection dp) (computeLiquidityDepth dp))
          (computeRiskLevel (computeRiskFactors dp (computeTop10Pct dp))
            (computeBuyPressure dp))
        score := computeScore (computeBuyPressure dp) (computeVolatilityScore dp)
          (computeRiskLevel (computeRiskFactors dp (computeTop10Pct dp))
            (computeBuyPressure dp))
          (computeTrendDirection dp) (computeLiquidityDepth dp)
        snapshot :=
          { priceUsd := safe dp.priceUsd 0
            marketCap := safe dp.marketCap 0
            volume24h := safe dp.volume24h 0
            liquidity := safe dp.liquidity 0
            holderCount := safe dp.holderCount 0
            top10HolderPct := ((jsRound (computeTop10Pct dp * 10) : ℤ) : ℚ) / 10
            buys24h := safe dp.buys24h 0
            sells24h := safe dp.sells24h 0
            bondingProgress := safe dp.bondingProgress 0
            snapshotAt := snapshotAtOf dp now }
        quant :=
          { riskLevel := computeRiskLevel (computeRiskFactors dp (computeTop10Pct dp))
              (computeBuyPressure dp)
            riskFactors := computeRiskFactors dp (computeTop10Pct dp)
            buyPressure := computeBuyPressure dp
            volatilityScore := computeVolatilityScore dp
            liquidityDepth := computeLiquidityDepth dp
            holderConcentration := computeHolderConcentration (computeTop10Pct dp)
            trendDirection := computeTrendDirection dp
            volumeProfile := computeVolumeProfile dp } } := rfl

theorem analyze_riskFactors (dp : DataPoint) (now : ℤ) :
    (analyze dp now).quant.riskFactors = computeRiskFactors dp (computeTop10Pct dp) := by
  rw [analyze_def]

theorem analyze_riskLevel (dp : DataPoint) (now : ℤ) :
    (analyze dp now).quant.riskLevel =
      computeRiskLevel (computeRiskFactors dp (computeTop10Pct dp)) (computeBuyPressure dp) := by
  rw [analyze_def]

theorem analyze_buyPressure (dp : DataPoint) (now : ℤ) :
    (analyze dp now).quant.buyPressure = computeBuyPressure dp := by
  rw [analyze_def]

theorem analyze_volatility (dp : DataPoint) (now : ℤ) :
    (analyze dp now).quant.volatilityScore = computeVolatilityScore dp := by
  rw [analyze_def]

theorem analyze_trend (dp : DataPoint) (now : ℤ) :
    (analyze dp now).quant.trendDirection = computeTrendDirection dp := by
  rw [analyze_def]

theorem analyze_score (dp : DataPoint) (now : ℤ) :
    (analyze dp now).score =
      computeScore (computeBuyPressure dp) (computeVolatilityScore dp)
        (computeRiskLevel (computeRiskFactors dp (computeTop10Pct dp)) (computeBuyPressure dp))
        (computeTrendDirection dp) (computeLiquidityDepth dp) := by
  rw [analyze_def]

theorem analyze_sentiment (dp : DataPoint) (now : ℤ) :
    (analyze dp now).sentiment =
      computeSentiment
        (computeScore (computeBuyPressure dp) (computeVolatilityScore dp)
          (computeRiskLevel (computeRiskFactors dp (computeTop10Pct dp)) (computeBuyPressure dp))
          (computeTrendDirection dp) (computeLiquidityDepth dp))
        (computeRiskLevel (computeRiskFactors dp (computeTop10Pct dp)) (computeBuyPressure dp)) := by
  rw [analyze_def]

theorem analyze_snapshotAt (dp : DataPoint) (now : ℤ) :
    (analyze dp now).snapshot.snapshotAt = snapshotAtOf dp now := by
  rw [analyze_def]

theorem buyPressure_eq (dp : DataPoint) :
    computeBuyPressure dp =
      if safe dp.buys24h 0 + safe dp.sells24h 0 = 0 then 50
      else jsClamp ((jsRound (safe dp.buys24h 0 /
        (safe dp.buys24h 0 + safe dp.sells24h 0 + 1) * 100) : ℤ) : ℚ) 0 100 := rfl

theorem buyPressure_range (dp : DataPoint) :
    isInt (computeBuyPressure dp) ∧ 0 ≤ computeBuyPressure dp ∧ computeBuyPressure dp ≤ 100 := by
  rw [buyPressure_eq]
  split
  · exact ⟨⟨50, by norm_num⟩, by norm_num, by norm_num⟩
  · exact ⟨isInt_jsClamp _, le_jsClamp _ _ _, jsClamp_le (by norm_num)⟩

theorem volBands_range (r : ℚ) : 10 ≤ volBands r ∧ volBands r ≤ 95 := by
  unfold volBands
  split
  · exact ⟨le_jsClamp _ _ _, (jsClamp_le (by norm_num)).trans (by norm_num)⟩
  · split
    · exact ⟨(by norm_num : (10:ℚ) ≤ 25).trans (le_jsClamp _ _ _),
        (jsClamp_le (by norm_num)).trans (by norm_num)⟩
    · split
      · exact ⟨(by norm_num : (10:ℚ) ≤ 50).trans (le_jsClamp _ _ _),
          (jsClamp_le (by norm_num)).trans (by norm_num)⟩
      · exact ⟨(by norm_num : (10:ℚ) ≤ 75).trans (le_jsClamp _ _ _),
          jsClamp_le (by norm_num)⟩

theorem computeVolatilityScore_def (dp : DataPoint) :
    computeVolatilityScore dp =
      if safe dp.marketCap 1 ≤ 0 then 50
      else volBands (safe dp.volume24h 0 / safe dp.marketCap 1) := rfl

theorem volatility_range (dp : DataPoint) :
    10 ≤ computeVolatilityScore dp ∧ computeVolatilityScore dp ≤ 95 := by
  rw [computeVolatilityScore_def]
  split
  · norm_num
  · exact volBands_range _

theorem score_range (bp vol : ℚ) (rl : RiskLevel) (td : TrendDirection)
    (ld : LiquidityDepth) :
    isInt (computeScore bp vol rl td ld) ∧ 0 ≤ computeScore bp vol rl td ld ∧
      computeScore bp vol rl td ld ≤ 100 := by
  unfold computeScore
  exact ⟨isInt_jsClamp _, le_jsClamp _ _ _, jsClamp_le (by norm_num)⟩

theorem hasCritical_iff (factors : List RiskFactor) :
    (factors.any (fun f => decide (f ∈ criticalFactors)) = true) ↔
      ∃ t ∈ factors, t ∈ criticalFactors := by
  simp [List.any_eq_true]

theorem computeRiskLevel_def (factors : List RiskFactor) (bp : ℚ) :
    computeRiskLevel factors bp =
      if (factors.any (fun f => decide (f ∈ criticalFactors))) = true ∨
          negCountOf factors ≥ 5 then .critical
      else if negCountOf factors ≥ 3 ∨ bp < 25 then .high
      else if negCountOf factors ≥ 1 then .medium
      else .low := rfl

theorem riskLevel_iff (factors : List RiskFactor) (bp : ℚ) :
    (computeRiskLevel factors bp = .critical ↔
      (∃ t ∈ factors, t ∈ criticalFactors) ∨ 5 ≤ negCountOf factors) ∧
    (computeRiskLevel factors bp = .high ↔
      ¬((∃ t ∈ factors, t ∈ criticalFactors) ∨ 5 ≤ negCountOf factors) ∧
        (3 ≤ negCountOf factors ∨ bp < 25)) ∧
    (computeRiskLevel factors bp = .medium ↔
      ¬((∃ t ∈ factors, t ∈ criticalFactors) ∨ 5 ≤ negCountOf factors) ∧
        ¬(3 ≤ negCountOf factors ∨ bp < 25) ∧ 1 ≤ negCountOf factors) ∧
    (computeRiskLevel factors bp = .low ↔
      ¬((∃ t ∈ factors, t ∈ criticalFactors) ∨ 5 ≤ negCountOf factors) ∧
        ¬(3 ≤ negCountOf factors ∨ bp < 25) ∧ negCountOf factors = 0) := by
  have hcrit := hasCritical_iff factors
  rw [computeRiskLevel_def]
  split
  · rename_i h
    rw [hcrit] at h
    refine ⟨iff_of_true rfl h, ?_, ?_, ?_⟩ <;>
      exact iff_of_false (by decide) (fun hx => hx.1 h)
  · rename_i h
    rw [hcrit] at h
    split
    · rename_i h2
      exact ⟨iff_of_false (by decide) h, iff_of_true rfl ⟨h, h2⟩,
        iff_of_false (by decide) (fun hx => hx.2.1 h2),
        iff_of_false (by decide) (fun hx => hx.2.1 h2)⟩
    · rename_i h2
      split
      · rename_i h3
        exact ⟨iff_of_false (by decide) h, iff_of_false (by decide) (fun hx => h2 hx.2),
          iff_of_true rfl ⟨h, h2, h3⟩,
          iff_of_false (by decide) (fun hx => absurd hx.2.2 (by omega))⟩
      · rename_i h3
        exact ⟨iff_of_false (by decide) h, iff_of_false (by decide) (fun hx => h2 hx.2),
          iff_of_false (by decide) (fun hx => h3 hx.2.2),
          iff_of_true rfl ⟨h, h2, by omega⟩⟩

theorem sentiment_iff (score : ℚ) (rl : RiskLevel) :
    (computeSentiment score rl = .bearish ↔ rl = .critical ∨ score < 35) ∧
    (computeSentiment score rl = .bullish ↔
      ¬(rl = .critical ∨ score < 35) ∧ (score > 65 ∧ rl ≠ .high)) ∧
    (computeSentiment score rl = .neutral ↔
      ¬(rl = .critical ∨ score < 35) ∧ ¬(score > 65 ∧ rl ≠ .high)) := by
  unfold computeSentiment
  split
  · rename_i h
    exact ⟨iff_of_true rfl h, iff_of_false (by decide) (fun hx => hx.1 h),
      iff_of_false (by decide) (fun hx => hx.1 h)⟩
  · rename_i h
    split
    · rename_i h2
      exact ⟨iff_of_false (by decide) h, iff_of_true rfl ⟨h, h2⟩,
        iff_of_false (by decide) (fun hx => hx.2 h2)⟩
    · rename_i h2
      exact ⟨iff_of_false (by decide) h, iff_of_false (by decide) (fun hx => h2 hx.2),
        iff_of_true rfl ⟨h, h2⟩⟩

theorem computeScore_eq (bp vol : ℚ) (rl : RiskLevel) (td : TrendDirection)
    (ld : LiquidityDepth) :
    computeScore bp vol rl td ld =
      jsClamp ((jsRound (50 + (bp - 50) * 0.5
        + (if td = .up then 10 else if td = .down then -10
           else if td = .reversal then -5 else 0)
        + (if vol > 70 then -5 else 0)
        + (if rl = .critical then -20 else if rl = .high then -10
           else if rl = .low then 10 else 0)
        + (if ld = .deep then 5 else if ld = .dry then -10 else 0)) : ℤ) : ℚ) 0 100 := by
  cases td <;> cases rl <;> cases ld <;> by_cases hv : vol > 70 <;>
    simp only [computeScore, hv, if_true, if_false] <;> (try simp) <;>
    exact congrArg (fun q => jsClamp ((jsRound q : ℤ) : ℚ) 0 100) (by ring)

theorem trend_zero_fallback (dp : DataPoint) (h1 : dp.priceChange1h = none)
    (h2 : dp.priceChange24h = none) (hb : safe dp.buys24h 0 = 0)
    (hs : safe dp.sells24h 0 = 0) :
    computeTrendDirection dp = .sideways := by
  simp [computeTrendDirection, h1, h2, hb, hs]

theorem firstHolderOver_iff (dp : DataPoint) :
    firstHolderOver dp = true ↔
      ∃ h rest, dp.topHolders = some (h :: rest) ∧ h.pct > 50 := by
  unfold firstHolderOver
  cases hth : dp.topHolders with
  | none => simp
  | some l =>
    cases l with
    | nil => simp
    | cons h t => simp

theorem shm_mem_factorsRaw (dp : DataPoint) (p : ℚ) :
    RiskFactor.single_holder_majority ∈ factorsRaw dp p ↔ firstHolderOver dp = true := by
  simp [factorsRaw, List.mem_append, mem_optTag]

theorem shm_take8 (dp : DataPoint) (p : ℚ) (hc : firstHolderOver dp = true) :
    RiskFactor.single_holder_majority ∈ (factorsRaw dp p).take 8 := by
  have hsplit : factorsRaw dp p =
      (optTag (safe dp.liquidity 0 < 50000) RiskFactor.low_liquidity
        ++ optTag (p > 80) RiskFactor.whale_dominance
        ++ optTag (p > 50 ∧ p ≤ 80) RiskFactor.high_concentration
        ++ optTag (overOpt dp.creatorHolding 30 = true) RiskFactor.creator_holds_majority
        ++ optTag (firstHolderOver dp = true) RiskFactor.single_holder_majority)
      ++ (optTag (dp.bondingComplete = false ∧ safe dp.bondingProgress 0 < 30)
            RiskFactor.bonding_curve_risk
        ++ optTag (truthy dp.website = false ∧ truthy dp.twitter = false ∧
             truthy dp.telegram = false) RiskFactor.no_social_presence
        ++ optTag (truthy dp.website = false) RiskFactor.no_website
        ++ optTag (overOpt dp.snipersHolding 20 = true) RiskFactor.dev_wallet_active
        ++ optTag (overOpt dp.insidersHolding 15 = true) RiskFactor.wash_trading
        ++ optTag (safe dp.sells24h 0 > safe dp.buys24h 0 * 2 ∧ safe dp.sells24h 0 > 20)
             RiskFactor.rapid_sell_off
        ++ optTag (safe dp.volume24h 0 < 1000 ∧ safe dp.holderCount 0 > 100)
             RiskFactor.dead_volume
        ++ optTag (underOpt dp.priceChange24h (-20) = true) RiskFactor.declining_holders
        ++ optTag (p ≤ 30 ∧ safe dp.holderCount 0 > 200) RiskFactor.healthy_distribution
        ++ optTag (truthy dp.twitter = true ∨ truthy dp.telegram = true)
             RiskFactor.verified_socials
        ++ optTag (safe dp.volume24h 0 > 50000 ∧
             safe dp.buys24h 0 > safe dp.sells24h 0 * 0.8) RiskFactor.organic_volume
        ++ optTag (safe dp.holderCount 0 > 500) RiskFactor.growing_holders
        ++ optTag (truthy dp.twitter = true) RiskFactor.strong_community) := by
    simp [factorsRaw, List.append_assoc]
  set L1 := optTag (safe dp.liquidity 0 < 50000) RiskFactor.low_liquidity
    ++ optTag (p > 80) RiskFactor.whale_dominance
    ++ optTag (p > 50 ∧ p ≤ 80) RiskFactor.high_concentration
    ++ optTag (overOpt dp.creatorHolding 30 = true) RiskFactor.creator_holds_majority
    ++ optTag (firstHolderOver dp = true) RiskFactor.single_holder_majority with hL1
  have hmem : RiskFactor.single_holder_majority ∈ L1 := by
    rw [hL1]
    refine List.mem_append_right _ ?_
    rw [optTag_pos hc]
    exact List.mem_singleton_self _
  have hlen : L1.length ≤ 8 := by
    have e1 := length_optTag_le (safe dp.liquidity 0 < 50000) RiskFactor.low_liquidity
    have e2 := length_optTag_le (p > 80) RiskFactor.whale_dominance
    have e3 := length_optTag_le (p > 50 ∧ p ≤ 80) RiskFactor.high_concentration
    have e4 := length_optTag_le (overOpt dp.creatorHolding 30 = true)
      RiskFactor.creator_holds_majority
    have e5 := length_optTag_le (firstHolderOver dp = true) RiskFactor.single_holder_majority
    rw [hL1]
    simp only [List.length_append]
    omega
  rw [hsplit, List.take_append_eq_append_take, List.take_of_length_le hlen]
  exact List.mem_append_left _ hmem

theorem shm_mem_riskFactors (dp : DataPoint) (p : ℚ) :
    RiskFactor.single_holder_majority ∈ computeRiskFactors dp p ↔
      firstHolderOver dp = true := by
  constructor
  · intro hmem
    rw [computeRiskFactors_def] at hmem
    by_cases h0 : dedupFirst (factorsRaw dp p) = []
    · rw [if_pos h0] at hmem
      simp only [List.take_succ_cons, List.take_nil, List.mem_singleton] at hmem
      split at hmem <;> simp at hmem
    · rw [if_neg h0] at hmem
      have hm2 : RiskFactor.single_holder_majority ∈ dedupFirst (factorsRaw dp p) :=
        List.take_subset _ _ hmem
      exact (shm_mem_factorsRaw dp p).mp (mem_dedupFirst.mp hm2)
  · intro hc
    have hnd := factorsRaw_nodup dp p
    have hded : dedupFirst (factorsRaw dp p) = factorsRaw dp p := dedupFirst_eq_self hnd
    have hraw : RiskFactor.single_holder_majority ∈ factorsRaw dp p :=
      (shm_mem_factorsRaw dp p).mpr hc
    have hne : ¬(dedupFirst (factorsRaw dp p) = []) := by
      rw [hded]
      intro h0
      rw [h0] at hraw
      cases hraw
    rw [computeRiskFactors_def, if_neg hne, hded]
    exact shm_take8 dp p hc

theorem riskFactors_mem_checklist (dp : DataPoint) (p : ℚ) :
    ∀ t ∈ computeRiskFactors dp p, t ∈ checklistTags :=
  fun _ ht => (riskFactors_sublist dp p).subset ht

theorem critical_checklist_eq_shm :
    ∀ t : RiskFactor, t ∈ criticalFactors → t ∈ checklistTags →
      t = RiskFactor.single_holder_majority := by
  decide

theorem riskFactors_fallback (dp : DataPoint) (p : ℚ)
    (h : factorsRaw dp p = []) :
    computeRiskFactors dp p =
      [if safe dp.liquidity 0 ≥ 50000 then RiskFactor.organic_volume
       else RiskFactor.low_liquidity] := by
  rw [computeRiskFactors_def, h]
  rfl

theorem analyze_liquidityDepth (dp : DataPoint) (now : ℤ) :
    (analyze dp now).quant.liquidityDepth = computeLiquidityDepth dp := by
  rw [analyze_def]

/- ================= claim theorems ================= -/

/-- C1 counterexample: on the all-absent DataPoint (price changes absent,
buys and sells absent, hence zero), the trend direction returned by analyze is
`sideways`, not `down` as the claim states: the code returns `sideways`
directly when buys + sells = 0, before any ratio is computed. -/
theorem c1_zero_activity_counterexample :
    dpNone.priceChange1h = none ∧ dpNone.priceChange24h = none ∧
    dpNone.buys24h = none ∧ dpNone.sells24h = none ∧
    (analyze dpNone 0).quant.trendDirection = TrendDirection.sideways ∧
    TrendDirection.sideways ≠ TrendDirection.down := by
  refine ⟨rfl, rfl, rfl, rfl, ?_, by decide⟩
  rw [analyze_trend]
  simp [computeTrendDirection, dpNone, safe]

/-- C1 (amended): for every DataPoint in which both price-change fields are
absent and buys24h and sells24h are both zero or absent, the trend direction
returned by analyze is `sideways`: the buy/sell-ratio fallback returns
`sideways` directly when there is no activity, without computing a ratio. -/
theorem c1_zero_activity_trend_sideways (dp : DataPoint) (now : ℤ)
    (h1 : dp.priceChange1h = none) (h2 : dp.priceChange24h = none)
    (hb : safe dp.buys24h 0 = 0) (hs : safe dp.sells24h 0 = 0) :
    (analyze dp now).quant.trendDirection = TrendDirection.sideways := by
  rw [analyze_trend]
  exact trend_zero_fallback dp h1 h2 hb hs

/-- C1 witness: the amended theorem applied at the all-absent DataPoint. -/
theorem c1_zero_activity_trend_sideways_witness :
    (analyze dpNone 5).quant.trendDirection = TrendDirection.sideways :=
  c1_zero_activity_trend_sideways dpNone 5 rfl rfl rfl rfl

/-- C2: for every DataPoint, the riskFactors list returned by analyze has no
duplicate tags, is a sublist of the checklist order (first-occurrence order
preserved), has length between 1 and 8, and when every checklist predicate is
false (raw checklist output empty) it is exactly the one fallback tag:
`organic_volume` if liquidity >= 50000, else `low_liquidity`. -/
theorem c2_riskFactors_shape (dp : DataPoint) (now : ℤ) :
    ((analyze dp now).quant.riskFactors).Nodup ∧
    List.Sublist ((analyze dp now).quant.riskFactors) checklistTags ∧
    1 ≤ ((analyze dp now).quant.riskFactors).length ∧
    ((analyze dp now).quant.riskFactors).length ≤ 8 ∧
    (factorsRaw dp (computeTop10Pct dp) = [] →
      (analyze dp now).quant.riskFactors =
        [if safe dp.liquidity 0 ≥ 50000 then RiskFactor.organic_volume
         else RiskFactor.low_liquidity]) := by
  rw [analyze_riskFactors]
  exact ⟨riskFactors_nodup dp _, riskFactors_sublist dp _, (riskFactors_length dp _).1,
    (riskFactors_length dp _).2, riskFactors_fallback dp _⟩

/-- C2 witness: on a DataPoint where every checklist predicate is false and
liquidity is 60000, the returned riskFactors are exactly `[organic_volume]`. -/
theorem c2_riskFactors_shape_witness :
    (analyze dpAllFalse 0).quant.riskFactors = [RiskFactor.organic_volume] := by
  have h := (c2_riskFactors_shape dpAllFalse 0).2.2.2.2 (by
    norm_num [factorsRaw, optTag, dpAllFalse, safe, truthy, overOpt, underOpt,
      firstHolderOver, computeTop10Pct]
    decide)
  rw [h]
  norm_num [dpAllFalse, safe]

/-- C3: for every DataPoint, with negCount counting returned risk factors in
the fixed 20-tag negative subset, the risk level is critical iff a critical
tag is present or negCount >= 5; otherwise high iff negCount >= 3 or
buyPressure < 25; otherwise medium iff negCount >= 1; otherwise low —
evaluated in that order, first match winning. -/
theorem c3_riskLevel_decision (dp : DataPoint) (now : ℤ) :
    ((analyze dp now).quant.riskLevel = RiskLevel.critical ↔
      (∃ t ∈ (analyze dp now).quant.riskFactors, t ∈ criticalFactors) ∨
        5 ≤ negCountOf ((analyze dp now).quant.riskFactors)) ∧
    ((analyze dp now).quant.riskLevel = RiskLevel.high ↔
      ¬((∃ t ∈ (analyze dp now).quant.riskFactors, t ∈ criticalFactors) ∨
          5 ≤ negCountOf ((analyze dp now).quant.riskFactors)) ∧
        (3 ≤ negCountOf ((analyze dp now).quant.riskFactors) ∨
          (analyze dp now).quant.buyPressure < 25)) ∧
    ((analyze dp now).quant.riskLevel = RiskLevel.medium ↔
      ¬((∃ t ∈ (analyze dp now).quant.riskFactors, t ∈ criticalFactors) ∨
          5 ≤ negCountOf ((analyze dp now).quant.riskFactors)) ∧
        ¬(3 ≤ negCountOf ((analyze dp now).quant.riskFactors) ∨
          (analyze dp now).quant.buyPressure < 25) ∧
        1 ≤ negCountOf ((analyze dp now).quant.riskFactors)) ∧
    ((analyze dp now).quant.riskLevel = RiskLevel.low ↔
      ¬((∃ t ∈ (analyze dp now).quant.riskFactors, t ∈ criticalFactors) ∨
          5 ≤ negCountOf ((analyze dp now).quant.riskFactors)) ∧
        ¬(3 ≤ negCountOf ((analyze dp now).quant.riskFactors) ∨
          (analyze dp now).quant.buyPressure < 25) ∧
        negCountOf ((analyze dp now).quant.riskFactors) = 0) := by
  rw [analyze_riskLevel, analyze_riskFactors, analyze_buyPressure]
  exact riskLevel_iff (computeRiskFactors dp (computeTop10Pct dp)) (computeBuyPressure dp)

/-- C4 counterexample: with market cap 1/2 (present, strictly between 0 and 1)
and 24h volume 1/2, the code divides by the market cap as-is (ratio 1, score
95), whereas the claim's `max(marketCap, 1)` denominator would give ratio 1/2
and score 75: a present market cap in (0,1) is NOT raised to 1. -/
theorem c4_volatility_counterexample :
    dpHalfCap.marketCap = some ((1 : ℚ)/2) ∧ (0 : ℚ) < (1 : ℚ)/2 ∧ ((1 : ℚ)/2) < 1 ∧
    (analyze dpHalfCap 0).quant.volatilityScore = 95 ∧
    specVolatilityScore dpHalfCap = 75 ∧ (95 : ℚ) ≠ 75 := by
  refine ⟨rfl, by norm_num, by norm_num, ?_, ?_, by norm_num⟩
  · rw [analyze_volatility]
    norm_num [computeVolatilityScore_def, dpHalfCap, safe, volBands, jsRound, jsClamp,
      max_def, min_def]
  · norm_num [specVolatilityScore, dpHalfCap, safe, volBands, jsRound, jsClamp,
      max_def, min_def]

/-- C4 (amended): the volatility ratio divides the 24h volume by
`safe(marketCap, 1)`: the market cap itself when present — used as-is even
when strictly between 0 and 1 — and 1 only when the field is absent; the
score is exactly 50 when the present market cap is <= 0. -/
theorem c4_volatility_denominator (dp : DataPoint) (now : ℤ) :
    ((analyze dp now).quant.volatilityScore = computeVolatilityScore dp) ∧
    (∀ mc, dp.marketCap = some mc → mc ≤ 0 → computeVolatilityScore dp = 50) ∧
    (∀ mc, dp.marketCap = some mc → 0 < mc →
      computeVolatilityScore dp = volBands (safe dp.volume24h 0 / mc)) ∧
    (dp.marketCap = none → computeVolatilityScore dp = volBands (safe dp.volume24h 0 / 1)) := by
  refine ⟨analyze_volatility dp now, ?_, ?_, ?_⟩
  · intro mc hmc hle
    have hsafe : safe dp.marketCap 1 = mc := by rw [hmc]; rfl
    rw [computeVolatilityScore_def, hsafe, if_pos hle]
  · intro mc hmc hpos
    have hsafe : safe dp.marketCap 1 = mc := by rw [hmc]; rfl
    rw [computeVolatilityScore_def, hsafe, if_neg (not_le.mpr hpos)]
  · intro hmc
    have hsafe : safe dp.marketCap 1 = 1 := by rw [hmc]; rfl
    rw [computeVolatilityScore_def, hsafe, if_neg (by norm_num)]

/-- C4 witness: the amended theorem applied at the market-cap-1/2 DataPoint. -/
theorem c4_volatility_denominator_witness :
    computeVolatilityScore dpHalfCap = volBands (safe dpHalfCap.volume24h 0 / ((1 : ℚ)/2)) :=
  (c4_volatility_denominator dpHalfCap 0).2.2.1 ((1 : ℚ)/2) rfl (by norm_num)

/-- C5: for every DataPoint and any moment of analysis on a real clock
(now >= 300000 ms), the snapshot timestamp equals the DataPoint's own capture
time exactly when it is present and less than 300000 ms old relative to
`now`, and otherwise equals `now`: stale input is restamped, never
rejected. -/
theorem c5_snapshot_timestamp (dp : DataPoint) (now : ℤ) (hnow : 300000 ≤ now) :
    (∀ ts, dp.snapshotAt = some ts → now - ts < 300000 →
      (analyze dp now).snapshot.snapshotAt = ts) ∧
    (∀ ts, dp.snapshotAt = some ts → ¬(now - ts < 300000) →
      (analyze dp now).snapshot.snapshotAt = now) ∧
    (dp.snapshotAt = none → (analyze dp now).snapshot.snapshotAt = now) := by
  rw [analyze_snapshotAt]
  unfold snapshotAtOf
  refine ⟨?_, ?_, ?_⟩
  · intro ts heq hfresh
    rw [heq]
    have hne : ts ≠ 0 := by
      intro h0
      rw [h0] at hfresh
      omega
    simp [hne, hfresh]
  · intro ts heq hstale
    rw [heq]
    have hnot : ¬(ts ≠ 0 ∧ now - ts < 300000) := fun hx => hstale hx.2
    simp only []
    rw [if_neg hnot]
  · intro heq
    rw [heq]

/-- C5 witness: a 100-second-old timestamp is kept verbatim. -/
theorem c5_snapshot_timestamp_witness :
    (analyze dpFresh 1000000).snapshot.snapshotAt = 900000 :=
  (c5_snapshot_timestamp dpFresh 1000000 (by norm_num)).1 900000 rfl (by norm_num)

/-- C6: for every DataPoint, the sentiment is bearish iff riskLevel is
critical or score < 35; otherwise bullish iff score > 65 and riskLevel is not
high; otherwise neutral.  In particular the result is never bullish when the
risk level is high or critical. -/
theorem c6_sentiment_rules (dp : DataPoint) (now : ℤ) :
    ((analyze dp now).sentiment = Sentiment.bearish ↔
      (analyze dp now).quant.riskLevel = RiskLevel.critical ∨ (analyze dp now).score < 35) ∧
    ((analyze dp now).sentiment = Sentiment.bullish ↔
      ¬((analyze dp now).quant.riskLevel = RiskLevel.critical ∨ (analyze dp now).score < 35) ∧
        ((analyze dp now).score > 65 ∧ (analyze dp now).quant.riskLevel ≠ RiskLevel.high)) ∧
    ((analyze dp now).sentiment = Sentiment.neutral ↔
      ¬((analyze dp now).quant.riskLevel = RiskLevel.critical ∨ (analyze dp now).score < 35) ∧
        ¬((analyze dp now).score > 65 ∧ (analyze dp now).quant.riskLevel ≠ RiskLevel.high)) ∧
    ((analyze dp now).quant.riskLevel = RiskLevel.high ∨
        (analyze dp now).quant.riskLevel = RiskLevel.critical →
      (analyze dp now).sentiment ≠ Sentiment.bullish) := by
  rw [analyze_sentiment, analyze_riskLevel, analyze_score]
  have h := sentiment_iff
    (computeScore (computeBuyPressure dp) (computeVolatilityScore dp)
      (computeRiskLevel (computeRiskFactors dp (computeTop10Pct dp)) (computeBuyPressure dp))
      (computeTrendDirection dp) (computeLiquidityDepth dp))
    (computeRiskLevel (computeRiskFactors dp (computeTop10Pct dp)) (computeBuyPressure dp))
  refine ⟨h.1, h.2.1, h.2.2, ?_⟩
  intro hrl hbull
  have hb := h.2.1.mp hbull
  rcases hrl with hh | hc
  · exact hb.2.2 hh
  · exact hb.1 (Or.inl hc)

/-- C7: for every DataPoint, the composite score equals
clamp(round(50 + (buyPressure-50)*0.5 + trend adj + volatility adj + risk adj
+ liquidity adj), 0, 100) and is an integer in [0, 100]. -/
theorem c7_composite_score (dp : DataPoint) (now : ℤ) :
    ((analyze dp now).score =
      jsClamp ((jsRound (50 + ((analyze dp now).quant.buyPressure - 50) * 0.5
        + (if (analyze dp now).quant.trendDirection = .up then 10
           else if (analyze dp now).quant.trendDirection = .down then -10
           else if (analyze dp now).quant.trendDirection = .reversal then -5 else 0)
        + (if (analyze dp now).quant.volatilityScore > 70 then -5 else 0)
        + (if (analyze dp now).quant.riskLevel = .critical then -20
           else if (analyze dp now).quant.riskLevel = .high then -10
           else if (analyze dp now).quant.riskLevel = .low then 10 else 0)
        + (if (analyze dp now).quant.liquidityDepth = .deep then 5
           else if (analyze dp now).quant.liquidityDepth = .dry then -10
           else 0)) : ℤ) : ℚ) 0 100) ∧
    isInt ((analyze dp now).score) ∧
    0 ≤ (analyze dp now).score ∧ (analyze dp now).score ≤ 100 := by
  rw [analyze_score, analyze_buyPressure, analyze_trend, analyze_volatility,
    analyze_riskLevel, analyze_liquidityDepth]
  have hr := score_range (computeBuyPressure dp) (computeVolatilityScore dp)
    (computeRiskLevel (computeRiskFactors dp (computeTop10Pct dp)) (computeBuyPressure dp))
    (computeTrendDirection dp) (computeLiquidityDepth dp)
  exact ⟨computeScore_eq _ _ _ _ _, hr.1, hr.2.1, hr.2.2⟩

/-- C8: for every DataPoint, buyPressure is exactly 50 when buys + sells = 0
(absent counting as 0), otherwise equals
clamp(round(buys / (buys + sells + 1) * 100), 0, 100); it is always an
integer in [0, 100]. -/
theorem c8_buy_pressure (dp : DataPoint) (now : ℤ) :
    (safe dp.buys24h 0 + safe dp.sells24h 0 = 0 →
      (analyze dp now).quant.buyPressure = 50) ∧
    (safe dp.buys24h 0 + safe dp.sells24h 0 ≠ 0 →
      (analyze dp now).quant.buyPressure =
        jsClamp ((jsRound (safe dp.buys24h 0 /
          (safe dp.buys24h 0 + safe dp.sells24h 0 + 1) * 100) : ℤ) : ℚ) 0 100) ∧
    isInt ((analyze dp now).quant.buyPressure) ∧
    0 ≤ (analyze dp now).quant.buyPressure ∧ (analyze dp now).quant.buyPressure ≤ 100 := by
  have hr := buyPressure_range dp
  rw [analyze_buyPressure]
  refine ⟨?_, ?_, hr.1, hr.2.1, hr.2.2⟩
  · intro h
    rw [buyPressure_eq, if_pos h]
  · intro h
    rw [buyPressure_eq, if_neg h]

/-- C8 witness: 80 buys and 20 sells give round(80/101*100) = 79. -/
theorem c8_buy_pressure_witness : (analyze dpBuys 0).quant.buyPressure = 79 := by
  have h := (c8_buy_pressure dpBuys 0).2.1 (by norm_num [dpBuys, safe])
  rw [h]
  norm_num [dpBuys, safe, jsRound, jsClamp, max_def, min_def]

/-- C9: analyze is total: for every DataPoint — including any combination of
absent optional fields — it returns a complete result whose numeric labels
satisfy their documented invariants: score an integer in [0,100], buyPressure
an integer in [0,100], volatilityScore in [10,95], and between 1 and 8 risk
factors. -/
theorem c9_analyze_total (dp : DataPoint) (now : ℤ) :
    (0 ≤ (analyze dp now).score ∧ (analyze dp now).score ≤ 100 ∧
      isInt ((analyze dp now).score)) ∧
    (0 ≤ (analyze dp now).quant.buyPressure ∧ (analyze dp now).quant.buyPressure ≤ 100 ∧
      isInt ((analyze dp now).quant.buyPressure)) ∧
    (10 ≤ (analyze dp now).quant.volatilityScore ∧
      (analyze dp now).quant.volatilityScore ≤ 95) ∧
    (1 ≤ ((analyze dp now).quant.riskFactors).length ∧
      ((analyze dp now).quant.riskFactors).length ≤ 8) := by
  rw [analyze_score, analyze_buyPressure, analyze_volatility, analyze_riskFactors]
  have hs := score_range (computeBuyPressure dp) (computeVolatilityScore dp)
    (computeRiskLevel (computeRiskFactors dp (computeTop10Pct dp)) (computeBuyPressure dp))
    (computeTrendDirection dp) (computeLiquidityDepth dp)
  have hb := buyPressure_range dp
  exact ⟨⟨hs.2.1, hs.2.2, hs.1⟩, ⟨hb.2.1, hb.2.2, hb.1⟩, volatility_range dp,
    riskFactors_length dp _⟩

/-- C10: for every DataPoint, every returned risk factor is one of the 18
checklist-producible tags — the listed 10 vocabulary tags never occur — and a
critical tag is present among the returned factors exactly when the
topHolders list is non-empty and its first entry's pct exceeds 50 (that tag
necessarily being `single_holder_majority`). -/
theorem c10_producible_tags (dp : DataPoint) (now : ℤ) :
    (∀ t ∈ (analyze dp now).quant.riskFactors, t ∈ checklistTags) ∧
    (∀ t ∈ unproducibleTags, t ∉ (analyze dp now).quant.riskFactors) ∧
    ((∃ t ∈ (analyze dp now).quant.riskFactors, t ∈ criticalFactors) ↔
      ∃ h rest, dp.topHolders = some (h :: rest) ∧ h.pct > 50) := by
  rw [analyze_riskFactors]
  refine ⟨riskFactors_mem_checklist dp _, ?_, ?_⟩
  · intro t htu htm
    exact (by decide : ∀ t : RiskFactor, t ∈ unproducibleTags → t ∈ checklistTags → False)
      t htu (riskFactors_mem_checklist dp _ t htm)
  · rw [← firstHolderOver_iff]
    constructor
    · rintro ⟨t, htm, htc⟩
      have heq := critical_checklist_eq_shm t htc (riskFactors_mem_checklist dp _ t htm)
      rw [heq] at htm
      exact (shm_mem_riskFactors dp _).mp htm
    · intro hc
      exact ⟨_, (shm_mem_riskFactors dp _).mpr hc, by decide⟩

end PumpQuant
